import Mathlib

/-!
Shallow embedding of `src/adcc/properties.py` (the adcc property pipeline):
transition dipole moments, oscillator strengths, excited-state dipole moments,
and the attachment orchestrators.

Numeric entries are modelled as rationals `ℚ` (the Python code computes with
IEEE floats; the claims under test concern the exact formulas, so we work in
exact arithmetic).  A dense rank-2 matrix is a list of rows.  Python attribute
presence (`hasattr`) is modelled by `Option` fields on the solver-state record,
and Python object mutation (`setattr`, `copy.copy`) by a small heap of
solver-state records addressed by index, together with a counter of
density-provider invocations.

The collaborators of `properties.py` that live in files not under `src/`
(`AdcMethod`, `attach_state_densities`, `HfDensityMatrix`, `product_trace`) are
modelled from the spec; each such definition carries a doc comment saying so.
-/

namespace Adcc

/-- A dense rank-2 numeric matrix, as a list of rows. -/
abbrev Mat := List (List ℚ)

/-- Modelled from the spec: the contraction primitive `product_trace` lives in
`adcc/OneParticleOperator.py`, which is not under `src/`.  The spec describes
it as "a scalar = sum(elementwise product) function over two equally-shaped
rank-2 matrices" (Frobenius-style contraction: sum over all index pairs of the
elementwise product). -/
def product_trace (a b : Mat) : ℚ :=
  (List.zipWith (fun ra rb => (List.zipWith (fun x y => x * y) ra rb).sum) a b).sum

/-- Modelled from the spec: the `AdcMethod` class of `adcc/AdcMethod.py` is not
under `src/`.  Per the spec it is "constructible from a raw label string" and
"exposes a property_method classification string". -/
structure AdcMethod where
  label : String
  property_method : String
deriving DecidableEq

/-- A method argument as the Python code receives it: either a raw label string
(to be turned into an `AdcMethod` by its constructor) or an already structured
`AdcMethod` — this is the `isinstance(method, AdcMethod)` distinction in the
source. -/
inductive MethodArg where
  | raw (label : String)
  | adc (m : AdcMethod)
deriving DecidableEq

/-- The `operator_integrals` object of the reference state.  `electric_dipole`
is `none` when the attribute is absent (`hasattr` fails). -/
structure OperatorIntegrals where
  electric_dipole : Option (List Mat)
deriving DecidableEq

/-- The reference-state provider: dipole operator integrals, the nuclear dipole
moment vector, and the Hartree-Fock one-particle density (consumed through
`HfDensityMatrix`). -/
structure ReferenceState where
  operator_integrals : OperatorIntegrals
  nuclear_dipole : List ℚ
  hf_density : Mat
deriving DecidableEq

/-- Modelled from the spec: `HfDensityMatrix` (from `adcc/OneParticleOperator.py`,
not under `src/`) builds the reference one-particle density matrix from the
reference state; we keep that matrix as a field of the reference state and let
`HfDensityMatrix` project it out. -/
def HfDensityMatrix (rs : ReferenceState) : Mat := rs.hf_density

/-- The `ground_state` collaborator: provides the MP(2) correction density. -/
structure GroundState where
  mp2_diffdm : Mat
deriving DecidableEq

/-- The solver-state object of `properties.py`.  `Option` fields model Python
attributes that may be absent (`hasattr` checks): density matrices attached on
demand by the density provider, and the derived property attributes attached by
the orchestrators. -/
structure SolverStateData where
  eigenvalues : List ℚ
  method : MethodArg
  reference_state : ReferenceState
  ground_state : GroundState
  state_diffdms : Option (List Mat)
  ground_to_excited_tdms : Option (List Mat)
  state_to_state_tdms : Option (List Mat)
  transition_dipole_moments : Option (List (List ℚ))
  oscillator_strengths : Option (List ℚ)
  state_dipole_moments : Option (List (List ℚ))
deriving DecidableEq

/-- The two Python exception kinds raised by `properties.py`: `ValueError`
(precondition errors) and `NotImplementedError`. -/
inductive PropError where
  | valueError (msg : String)
  | notImplementedError (msg : String)
deriving DecidableEq

/-- `transition_dipole_moments(state)` from `src/adcc/properties.py`: checks
for `ground_to_excited_tdms`, then for the electric dipole integrals, then
contracts each dipole component against each transition density. -/
def transition_dipole_moments (state : SolverStateData) :
    Except PropError (List (List ℚ)) :=
  match state.ground_to_excited_tdms with
  | none => .error (.valueError
      "Cannot compute transition dipole moment without transition densities.")
  | some tdms =>
    match state.reference_state.operator_integrals.electric_dipole with
    | none => .error (.valueError
        "Reference state cannot provide electric dipole integrals.")
    | some dipole_integrals =>
      .ok (tdms.map (fun tdm => dipole_integrals.map (fun comp => product_trace comp tdm)))

/-- The squared Euclidean norm of a vector: `np.linalg.norm(v) ** 2 = Σ vᵢ²`
exactly (the square cancels the square root). -/
def normSq (v : List ℚ) : ℚ := (v.map (fun x => x * x)).sum

/-- `oscillator_strengths(transition_dipole_moments, energies)` from
`src/adcc/properties.py`: `f = 2/3 * ‖tdm‖² * |ev|` for each positional pair
produced by Python's `zip` (which truncates to the shorter sequence). -/
def oscillator_strengths (tdms : List (List ℚ)) (energies : List ℚ) : List ℚ :=
  (tdms.zip energies).map (fun p => 2 / 3 * (normSq p.1 * |p.2|))

/-- The method-resolution steps of `state_dipole_moments`: `if method is None:
method = state.method` followed by `if not isinstance(method, AdcMethod):
method = AdcMethod(method)`.  The `AdcMethod` constructor itself is modelled
from the spec through the abstract classification map `classify` (the spec
gives no concrete label-to-classification mapping). -/
def resolveMethod (classify : String → String) (arg : Option MethodArg)
    (stateMethod : MethodArg) : AdcMethod :=
  match arg.getD stateMethod with
  | .adc m => m
  | .raw l => { label := l, property_method := classify l }

/-- `state_dipole_moments(state, method=None)` from `src/adcc/properties.py`:
checks `state_diffdms`, then the dipole integrals, resolves the method, bails
out with `NotImplementedError` for property methods `adc0`/`adc1`, then forms
the ground-state dipole moment (HF plus MP(2) electronic traces minus the
nuclear dipole) and adds each difference-density contraction vector to it. -/
def state_dipole_moments (classify : String → String) (state : SolverStateData)
    (method : Option MethodArg) : Except PropError (List (List ℚ)) :=
  match state.state_diffdms with
  | none => .error (.valueError
      "Cannot compute transition dipole moment without state densities.")
  | some diffdms =>
    match state.reference_state.operator_integrals.electric_dipole with
    | none => .error (.valueError
        "Reference state cannot provide electric dipole integrals.")
    | some dipole_integrals =>
      let m := resolveMethod classify method state.method
      if m.property_method = "adc0" ∨ m.property_method = "adc1" then
        .error (.notImplementedError
          "ADC(0) and ADC(1) state dipole moments not yet implemented.")
      else
        let hf_dm := HfDensityMatrix state.reference_state
        let mp2_diffdm := state.ground_state.mp2_diffdm
        let gs_dip_moment := List.zipWith (fun x y => x - y)
          (dipole_integrals.map
            (fun comp => product_trace comp hf_dm + product_trace comp mp2_diffdm))
          state.reference_state.nuclear_dipole
        .ok (diffdms.map (fun ddm =>
          List.zipWith (fun x y => x + y) gs_dip_moment
            (dipole_integrals.map (fun comp => product_trace comp ddm))))

/-- Heap addresses for solver-state objects. -/
abbrev Addr := Nat

/-- The default record behind out-of-range heap reads (never relevant for the
theorems, which work at valid addresses). -/
def blankState : SolverStateData :=
  { eigenvalues := []
    method := .raw ""
    reference_state :=
      { operator_integrals := { electric_dipole := none }
        nuclear_dipole := []
        hf_density := [] }
    ground_state := { mp2_diffdm := [] }
    state_diffdms := none
    ground_to_excited_tdms := none
    state_to_state_tdms := none
    transition_dipole_moments := none
    oscillator_strengths := none
    state_dipole_moments := none }

/-- The Python heap fragment these functions touch: solver-state objects
addressed by index (`copy.copy` allocates a fresh object at the end, attribute
assignment mutates one object in place), plus a counter of density-provider
invocations — the "collaborator call-count probe" of the spec. -/
structure World where
  heap : List SolverStateData
  providerCalls : Nat
deriving DecidableEq

/-- Read the object at an address. -/
def World.read (w : World) (a : Addr) : SolverStateData := w.heap.getD a blankState

/-- Overwrite the object at an address (a Python `setattr` writes the updated
record back). -/
def World.write (w : World) (a : Addr) (d : SolverStateData) : World :=
  { w with heap := w.heap.set a d }

/-- `copy.copy(solver_state)`: allocate a fresh object holding the same
attribute record and return its address. -/
def copyState (w : World) (a : Addr) : World × Addr :=
  ({ w with heap := w.heap ++ [w.read a] }, w.heap.length)

/-- Modelled from the spec: the density provider collaborator, parametrized by
how it computes each density kind from a solver state (the computations
themselves are outside this module's scope). -/
structure DensityProvider where
  diffdms : SolverStateData → List Mat
  g2eTdms : SolverStateData → List Mat
  s2sTdms : SolverStateData → List Mat

/-- Modelled from the spec: `attach_state_densities` (from
`adcc/state_densities.py`, not under `src/`) is "callable with signature
(state, flags selecting which density kinds to compute, method) → state with
requested arrays attached".  It attaches the requested density arrays to the
given object and hands that object back; every call bumps the provider call
counter. -/
def attach_state_densities (P : DensityProvider) (w : World) (a : Addr)
    (state_diffdm ground_to_excited_tdm state_to_state_tdm : Bool)
    (method : Option MethodArg) : World × Addr :=
  let d0 := w.read a
  let d1 := if state_diffdm then { d0 with state_diffdms := some (P.diffdms d0) } else d0
  let d2 := if ground_to_excited_tdm then
      { d1 with ground_to_excited_tdms := some (P.g2eTdms d1) } else d1
  let d3 := if state_to_state_tdm then
      { d2 with state_to_state_tdms := some (P.s2sTdms d2) } else d2
  ({ heap := w.heap.set a d3, providerCalls := w.providerCalls + 1 }, a)

/-- `attach_state_properties(solver_state, method=None)` from
`src/adcc/properties.py`: ensure `state_diffdms` exists (invoking the density
provider with only the state-difference-density flag set), then compute and
attach `state_dipole_moments`.  A raised exception leaves the heap as mutated
so far and produces no result address. -/
def attach_state_properties (classify : String → String) (P : DensityProvider)
    (w : World) (a : Addr) (method : Option MethodArg) :
    World × Except PropError Addr :=
  let wa :=
    if (w.read a).state_diffdms.isSome then (w, a)
    else attach_state_densities P w a true false false method
  match state_dipole_moments classify (wa.1.read wa.2) method with
  | .error e => (wa.1, .error e)
  | .ok v =>
    (wa.1.write wa.2 { wa.1.read wa.2 with state_dipole_moments := some v }, .ok wa.2)

/-- `attach_transition_properties(state, method=None)` from
`src/adcc/properties.py`: ensure `ground_to_excited_tdms` exists (invoking the
density provider with only the ground-to-excited flag set), then attach
`transition_dipole_moments` and, from the freshly attached attribute and the
eigenvalues, `oscillator_strengths`. -/
def attach_transition_properties (P : DensityProvider) (w : World) (a : Addr)
    (method : Option MethodArg) : World × Except PropError Addr :=
  let wa :=
    if (w.read a).ground_to_excited_tdms.isSome then (w, a)
    else attach_state_densities P w a false true false method
  match transition_dipole_moments (wa.1.read wa.2) with
  | .error e => (wa.1, .error e)
  | .ok tdip =>
    let w1 := wa.1.write wa.2
      { wa.1.read wa.2 with transition_dipole_moments := some tdip }
    let d := w1.read wa.2
    let oscs := oscillator_strengths (d.transition_dipole_moments.getD []) d.eigenvalues
    (w1.write wa.2 { d with oscillator_strengths := some oscs }, .ok wa.2)

/-- `attach_properties(solver_state, transition_properties=True,
state_properties=True, method=None)` from `src/adcc/properties.py`: shallow-copy
the input state, then conditionally run the state-property orchestrator, then
conditionally the transition-property orchestrator, on the copy. -/
def attach_properties (classify : String → String) (P : DensityProvider)
    (w : World) (a : Addr) (transition_properties state_properties : Bool)
    (method : Option MethodArg) : World × Except PropError Addr :=
  let wa := copyState w a
  let ws :=
    if state_properties then attach_state_properties classify P wa.1 wa.2 method
    else (wa.1, .ok wa.2)
  match ws.2 with
  | .error e => (ws.1, .error e)
  | .ok b =>
    if transition_properties then attach_transition_properties P ws.1 b method
    else (ws.1, .ok b)

/-! ### Concrete fixtures

Small concrete collaborators and solver states used by witnesses and
counterexamples; the numbers follow the concrete scenarios of the spec. -/

/-- A classification map that interprets each raw label as its own
property-method classification (so label `"adc0"` classifies as `"adc0"`). -/
def classify0 : String → String := fun l => l

/-- Three 1×1 dipole-integral components `[[1]], [[0]], [[0]]`. -/
def dip0 : List Mat := [[[1]], [[0]], [[0]]]

/-- Three 1×1 dipole-integral components `[[2]], [[3]], [[0]]` (the spec's
concrete transition-dipole scenario, padded to 3 components). -/
def dip3 : List Mat := [[[2]], [[3]], [[0]]]

/-- A reference state realizing the spec's state-dipole scenario: electronic
trace terms summing to `[1, 0, 0]` (HF density `[[3/5]]` plus MP2 correction
`[[2/5]]` against `dip0`), nuclear dipole `[3/10, 0, 0]`. -/
def refState0 : ReferenceState :=
  { operator_integrals := { electric_dipole := some dip0 }
    nuclear_dipole := [3 / 10, 0, 0]
    hf_density := [[3 / 5]] }

/-- A reference state for the transition-dipole scenario. -/
def refStateT : ReferenceState :=
  { operator_integrals := { electric_dipole := some dip3 }
    nuclear_dipole := [0, 0, 0]
    hf_density := [[1]] }

/-- A solver state with method label "adc0", dipole integrals present, but no
`state_diffdms` attribute. -/
def stateNoDiffAdc0 : SolverStateData :=
  { blankState with
      method := .raw "adc0"
      reference_state := refState0
      ground_state := { mp2_diffdm := [[2 / 5]] } }

/-- The same state with a single state difference-density `[[1/5]]` attached. -/
def stateDiffAdc0 : SolverStateData :=
  { stateNoDiffAdc0 with state_diffdms := some [[[1 / 5]]] }

/-- The same populated state with method label "adc2". -/
def stateDiffAdc2 : SolverStateData :=
  { stateDiffAdc0 with method := .raw "adc2" }

/-- A solver state with one ground-to-excited transition density `[[1]]` and
eigenvalue `1/2`. -/
def stateT : SolverStateData :=
  { blankState with
      eigenvalues := [1 / 2]
      reference_state := refStateT
      ground_to_excited_tdms := some [[[1]]] }

/-- A density provider whose computed densities are all empty. -/
def provider0 : DensityProvider :=
  { diffdms := fun _ => []
    g2eTdms := fun _ => []
    s2sTdms := fun _ => [] }

/-- A second, different density provider, to exhibit provider-independence. -/
def provider1 : DensityProvider :=
  { diffdms := fun _ => [[[7]]]
    g2eTdms := fun _ => [[[8]]]
    s2sTdms := fun _ => [[[9]]] }

/-- A one-object world holding the transition-ready state. -/
def worldT : World := { heap := [stateT], providerCalls := 0 }

/-- A one-object world holding the populated adc2 state. -/
def world0 : World := { heap := [stateDiffAdc2], providerCalls := 0 }

/-! ### Helper lemmas -/

theorem getD_map_of_lt {α β : Type} (f : α → β) (l : List α) (i : Nat) (d : β)
    (d' : α) (h : i < l.length) : (l.map f).getD i d = f (l.getD i d') := by
  induction l generalizing i with
  | nil => simp at h
  | cons x xs ih =>
    cases i with
    | zero => rfl
    | succ n =>
      simp only [List.map_cons, List.getD_cons_succ]
      exact ih n (by simpa using h)

theorem getD_zipWith_of_lt {α β γ : Type} (f : α → β → γ) (a : List α) (b : List β)
    (i : Nat) (d : γ) (da : α) (db : β) (ha : i < a.length) (hb : i < b.length) :
    (List.zipWith f a b).getD i d = f (a.getD i da) (b.getD i db) := by
  induction a generalizing b i with
  | nil => simp at ha
  | cons x xs ih =>
    cases b with
    | nil => simp at hb
    | cons y ys =>
      cases i with
      | zero => rfl
      | succ n =>
        simp only [List.zipWith_cons_cons, List.getD_cons_succ]
        exact ih ys n (by simpa using ha) (by simpa using hb)

theorem oscillator_strengths_length (tdms : List (List ℚ)) (es : List ℚ) :
    (oscillator_strengths tdms es).length = min tdms.length es.length := by
  simp [oscillator_strengths]

theorem oscillator_strengths_getD (tdms : List (List ℚ)) (es : List ℚ) (i : Nat)
    (h1 : i < tdms.length) (h2 : i < es.length) :
    (oscillator_strengths tdms es).getD i 0
      = 2 / 3 * (normSq (tdms.getD i []) * |es.getD i 0|) := by
  induction tdms generalizing es i with
  | nil => simp at h1
  | cons v vs ih =>
    cases es with
    | nil => simp at h2
    | cons e es =>
      cases i with
      | zero => rfl
      | succ n =>
        have h := ih es n (by simpa using h1) (by simpa using h2)
        simpa [oscillator_strengths, List.getD_cons_succ] using h

theorem normSq_nonneg (v : List ℚ) : 0 ≤ normSq v := by
  refine List.sum_nonneg ?_
  intro x hx
  simp only [List.mem_map] at hx
  obtain ⟨y, _, rfl⟩ := hx
  exact mul_self_nonneg y

/-! ### Claims about `oscillator_strengths` -/

/-- Claim C2: for equal-length inputs of N transition dipole vectors and N
signed energies, `oscillator_strengths` returns N scalars, the i-th being
`2/3 * ‖tdmᵢ‖² * |energyᵢ|`, in input order. -/
theorem C2_oscillator_strengths_formula (tdms : List (List ℚ)) (es : List ℚ)
    (h : tdms.length = es.length) :
    (oscillator_strengths tdms es).length = tdms.length ∧
    ∀ i, i < tdms.length →
      (oscillator_strengths tdms es).getD i 0
        = 2 / 3 * normSq (tdms.getD i []) * |es.getD i 0| := by
  constructor
  · simp [oscillator_strengths_length, h]
  · intro i hi
    rw [oscillator_strengths_getD tdms es i hi (h ▸ hi), mul_assoc]

/-- Witness for C2, at the spec's concrete scenario: one dipole vector
`[2, 3]` and energy `1/2` give the single oscillator strength
`2/3 * 13 * 1/2 = 13/3`. -/
theorem C2_oscillator_strengths_formula_witness :
    [[(2 : ℚ), 3]].length = [(1 : ℚ) / 2].length ∧
    ((oscillator_strengths [[(2 : ℚ), 3]] [(1 : ℚ) / 2]).length = 1 ∧
      ∀ i, i < 1 →
        (oscillator_strengths [[(2 : ℚ), 3]] [(1 : ℚ) / 2]).getD i 0
          = 2 / 3 * normSq ([[(2 : ℚ), 3]].getD i []) * |[(1 : ℚ) / 2].getD i 0|) ∧
    (oscillator_strengths [[(2 : ℚ), 3]] [(1 : ℚ) / 2]).getD 0 0 = 13 / 3 :=
  ⟨rfl, C2_oscillator_strengths_formula [[2, 3]] [1 / 2] rfl,
    by norm_num [oscillator_strengths, normSq,
      abs_of_nonneg (show (0 : ℚ) ≤ 1 / 2 by norm_num)]⟩

/-- Claim C8: every element of the output of `oscillator_strengths` is
non-negative, whatever the inputs (any lengths, any signs). -/
theorem C8_oscillator_strengths_nonneg (tdms : List (List ℚ)) (es : List ℚ)
    (x : ℚ) (hx : x ∈ oscillator_strengths tdms es) : 0 ≤ x := by
  simp only [oscillator_strengths, List.mem_map] at hx
  obtain ⟨p, _, rfl⟩ := hx
  exact mul_nonneg (by norm_num)
    (mul_nonneg (normSq_nonneg p.1) (abs_nonneg p.2))

/-- Witness for C8: the output element `2/3 * 9 * |-2| = 12` produced from
dipole vector `[3]` and negative energy `-2` is non-negative. -/
theorem C8_oscillator_strengths_nonneg_witness :
    (12 : ℚ) ∈ oscillator_strengths [[(3 : ℚ)]] [(-2 : ℚ)] ∧ (0 : ℚ) ≤ 12 :=
  ⟨by norm_num [oscillator_strengths, normSq],
    C8_oscillator_strengths_nonneg [[3]] [-2] 12
      (by norm_num [oscillator_strengths, normSq])⟩

/-- Claim C10: on inputs of unequal lengths N ≠ M, `oscillator_strengths`
raises no error (the embedding is a total function, mirroring the bare
Python `zip`) and returns `min N M` values, pairing inputs positionally and
dropping the excess of the longer sequence.  Proved for all lengths. -/
theorem C10_oscillator_strengths_truncates (tdms : List (List ℚ)) (es : List ℚ) :
    (oscillator_strengths tdms es).length = min tdms.length es.length ∧
    ∀ i, i < min tdms.length es.length →
      (oscillator_strengths tdms es).getD i 0
        = 2 / 3 * normSq (tdms.getD i []) * |es.getD i 0| := by
  refine ⟨oscillator_strengths_length tdms es, fun i hi => ?_⟩
  rw [oscillator_strengths_getD tdms es i (lt_of_lt_of_le hi (min_le_left _ _))
    (lt_of_lt_of_le hi (min_le_right _ _)), mul_assoc]

/-- Witness for C10: two dipole vectors and one energy produce exactly one
value, `2/3 * 1 * 2 = 4/3`; the second vector is dropped. -/
theorem C10_oscillator_strengths_truncates_witness :
    ((oscillator_strengths [[(1 : ℚ)], [2]] [(2 : ℚ)]).length
        = min [[(1 : ℚ)], [2]].length [(2 : ℚ)].length ∧
      ∀ i, i < min [[(1 : ℚ)], [2]].length [(2 : ℚ)].length →
        (oscillator_strengths [[(1 : ℚ)], [2]] [(2 : ℚ)]).getD i 0
          = 2 / 3 * normSq ([[(1 : ℚ)], [2]].getD i []) * |[(2 : ℚ)].getD i 0|) ∧
    oscillator_strengths [[(1 : ℚ)], [2]] [(2 : ℚ)] = [4 / 3] :=
  ⟨C10_oscillator_strengths_truncates [[1], [2]] [2],
    by norm_num [oscillator_strengths, normSq]⟩

/-! ### Claims about `transition_dipole_moments` -/

/-- Claim C3: with N transition densities and the ordered dipole-integral
matrices (3 components) present, `transition_dipole_moments` returns an N×3
array whose (i, k) entry is the contraction of the k-th dipole-integral matrix
with the i-th transition density, rows in state order. -/
theorem C3_transition_dipole_moments_shape (s : SolverStateData)
    (tl dl : List Mat)
    (h1 : s.ground_to_excited_tdms = some tl)
    (h2 : s.reference_state.operator_integrals.electric_dipole = some dl)
    (h3 : dl.length = 3) :
    ∃ res, transition_dipole_moments s = .ok res ∧
      res.length = tl.length ∧
      (∀ i, i < tl.length → (res.getD i []).length = 3) ∧
      (∀ i k, i < tl.length → k < 3 →
        (res.getD i []).getD k 0 = product_trace (dl.getD k []) (tl.getD i [])) := by
  refine ⟨tl.map (fun tdm => dl.map (fun comp => product_trace comp tdm)),
    ?_, ?_, ?_, ?_⟩
  · simp [transition_dipole_moments, h1, h2]
  · simp
  · intro i hi
    rw [getD_map_of_lt _ tl i _ [] hi]
    simp [h3]
  · intro i k hi hk
    rw [getD_map_of_lt _ tl i _ [] hi,
      getD_map_of_lt _ dl k _ [] (by rw [h3]; exact hk)]

/-- Witness for C3, at the spec's concrete scenario: one transition density
`[[1]]` against dipole components `[[2]], [[3]], [[0]]` gives the single
transition dipole vector `[2, 3, 0]`. -/
theorem C3_transition_dipole_moments_shape_witness :
    (∃ res, transition_dipole_moments stateT = .ok res ∧
      res.length = 1 ∧
      (∀ i, i < 1 → (res.getD i []).length = 3) ∧
      (∀ i k, i < 1 → k < 3 →
        (res.getD i []).getD k 0
          = product_trace (dip3.getD k []) ([[[(1 : ℚ)]]].getD i []))) ∧
    transition_dipole_moments stateT = .ok [[2, 3, 0]] :=
  ⟨C3_transition_dipole_moments_shape stateT [[[1]]] dip3 rfl rfl rfl,
    by norm_num [transition_dipole_moments, stateT, refStateT, blankState, dip3,
      product_trace]⟩

/-- Claim C7: `transition_dipole_moments` fails (with a `ValueError`
precondition error, returning no result) exactly when `ground_to_excited_tdms`
is absent or the reference state's operator integrals lack `electric_dipole`;
it performs no other validation (otherwise it returns a result). -/
theorem C7_transition_dipole_moments_error_iff (s : SolverStateData) :
    ((∃ msg, transition_dipole_moments s = .error (.valueError msg)) ↔
      (s.ground_to_excited_tdms = none ∨
        s.reference_state.operator_integrals.electric_dipole = none)) ∧
    ((∃ res, transition_dipole_moments s = .ok res) ↔
      (s.ground_to_excited_tdms ≠ none ∧
        s.reference_state.operator_integrals.electric_dipole ≠ none)) := by
  rcases h1 : s.ground_to_excited_tdms with _ | tl
  · constructor <;> simp [transition_dipole_moments, h1]
  · rcases h2 : s.reference_state.operator_integrals.electric_dipole with _ | dl
    · constructor <;> simp [transition_dipole_moments, h1, h2]
    · constructor <;> simp [transition_dipole_moments, h1, h2]

/-! ### Claims about `state_dipole_moments` -/

/-- Counterexample to claim C1 as stated: this state's resolved method has
property_method `"adc0"` and its dipole integrals are present, but its
`state_diffdms` attribute is absent, and `state_dipole_moments` fails with a
`ValueError`, not with `NotImplementedError` — the attribute presence checks
run before the ADC(0)/ADC(1) method check. -/
theorem C1_counterexample :
    (resolveMethod classify0 none stateNoDiffAdc0.method).property_method
        = "adc0" ∧
    stateNoDiffAdc0.state_diffdms = none ∧
    stateNoDiffAdc0.reference_state.operator_integrals.electric_dipole
        = some dip0 ∧
    state_dipole_moments classify0 stateNoDiffAdc0 none
      = .error (.valueError
          "Cannot compute transition dipole moment without state densities.") :=
  ⟨rfl, rfl, rfl, rfl⟩

/-- Claim C1, amended: whenever the attribute preconditions hold (the state has
`state_diffdms` and the reference state has electric dipole integrals), a
resolved method whose property_method is `"adc0"` or `"adc1"` makes
`state_dipole_moments` fail with the `NotImplementedError` condition. -/
theorem C1_adc01_not_implemented (classify : String → String)
    (s : SolverStateData) (method : Option MethodArg) (dds dl : List Mat)
    (h1 : s.state_diffdms = some dds)
    (h2 : s.reference_state.operator_integrals.electric_dipole = some dl)
    (h3 : (resolveMethod classify method s.method).property_method = "adc0" ∨
      (resolveMethod classify method s.method).property_method = "adc1") :
    state_dipole_moments classify s method
      = .error (.notImplementedError
          "ADC(0) and ADC(1) state dipole moments not yet implemented.") := by
  simp only [state_dipole_moments, h1, h2]
  rw [if_pos h3]

/-- Witness for the amended C1: a populated state with method label "adc0"
fails with `NotImplementedError`. -/
theorem C1_adc01_not_implemented_witness :
    stateDiffAdc0.state_diffdms = some [[[1 / 5]]] ∧
    stateDiffAdc0.reference_state.operator_integrals.electric_dipole
        = some dip0 ∧
    ((resolveMethod classify0 none stateDiffAdc0.method).property_method
          = "adc0" ∨
      (resolveMethod classify0 none stateDiffAdc0.method).property_method
          = "adc1") ∧
    state_dipole_moments classify0 stateDiffAdc0 none
      = .error (.notImplementedError
          "ADC(0) and ADC(1) state dipole moments not yet implemented.") :=
  ⟨rfl, rfl, Or.inl rfl,
    C1_adc01_not_implemented classify0 stateDiffAdc0 none [[[1 / 5]]] dip0
      rfl rfl (Or.inl rfl)⟩

theorem gs_row_getD (dl : List Mat) (nuc : List ℚ) (hf mp2 ddm : Mat) (k : Nat)
    (hdl : k < dl.length) (hnuc : k < nuc.length) :
    (List.zipWith (fun x y => x + y)
      (List.zipWith (fun x y => x - y)
        (dl.map (fun comp => product_trace comp hf + product_trace comp mp2))
        nuc)
      (dl.map (fun comp => product_trace comp ddm))).getD k 0
    = (product_trace (dl.getD k []) hf + product_trace (dl.getD k []) mp2
        - nuc.getD k 0) + product_trace (dl.getD k []) ddm := by
  rw [getD_zipWith_of_lt _ _ _ k 0 0 0
    (by simpa using lt_min hdl hnuc) (by simpa using hdl)]
  rw [getD_zipWith_of_lt _ _ _ k 0 0 0 (by simpa using hdl) hnuc]
  rw [getD_map_of_lt _ dl k 0 [] hdl, getD_map_of_lt _ dl k 0 [] hdl]

/-- Claim C4: for a state with N difference-densities, MP2 correction density,
dipole integrals and nuclear dipole, and an admissible (non-adc0/adc1) method,
`state_dipole_moments` returns N 3-vectors; the (i, k) entry is
`trace(dip_k, hf_density) + trace(dip_k, mp2_diffdm) - nuclear_dipole_k`
(the ground-state dipole) plus the contraction of `dip_k` with the i-th
difference-density. -/
theorem C4_state_dipole_moments_formula (classify : String → String)
    (s : SolverStateData) (method : Option MethodArg) (dds dl : List Mat)
    (h1 : s.state_diffdms = some dds)
    (h2 : s.reference_state.operator_integrals.electric_dipole = some dl)
    (h3 : ¬((resolveMethod classify method s.method).property_method = "adc0" ∨
      (resolveMethod classify method s.method).property_method = "adc1"))
    (hdl : dl.length = 3) (hnuc : s.reference_state.nuclear_dipole.length = 3) :
    ∃ res, state_dipole_moments classify s method = .ok res ∧
      res.length = dds.length ∧
      ∀ i k, i < dds.length → k < 3 →
        (res.getD i []).getD k 0
          = (product_trace (dl.getD k []) (HfDensityMatrix s.reference_state)
              + product_trace (dl.getD k []) s.ground_state.mp2_diffdm
              - s.reference_state.nuclear_dipole.getD k 0)
            + product_trace (dl.getD k []) (dds.getD i []) := by
  refine ⟨dds.map (fun ddm =>
    List.zipWith (fun x y => x + y)
      (List.zipWith (fun x y => x - y)
        (dl.map (fun comp =>
          product_trace comp (HfDensityMatrix s.reference_state)
            + product_trace comp s.ground_state.mp2_diffdm))
        s.reference_state.nuclear_dipole)
      (dl.map (fun comp => product_trace comp ddm))), ?_, ?_, ?_⟩
  · simp only [state_dipole_moments, h1, h2]
    rw [if_neg h3]
  · simp
  · intro i k hi hk
    rw [getD_map_of_lt _ dds i _ [] hi]
    exact gs_row_getD dl s.reference_state.nuclear_dipole _ _ _ k
      (by rw [hdl]; exact hk) (by rw [hnuc]; exact hk)

/-- Witness for C4, at the spec's concrete scenario: electronic trace terms
sum to `[1, 0, 0]`, nuclear dipole `[3/10, 0, 0]`, state contraction
`[1/5, 0, 0]`, giving the state dipole moment `[9/10, 0, 0]`. -/
theorem C4_state_dipole_moments_formula_witness :
    (∃ res, state_dipole_moments classify0 stateDiffAdc2 none = .ok res ∧
      res.length = 1 ∧
      ∀ i k, i < 1 → k < 3 →
        (res.getD i []).getD k 0
          = (product_trace (dip0.getD k [])
                (HfDensityMatrix stateDiffAdc2.reference_state)
              + product_trace (dip0.getD k [])
                  stateDiffAdc2.ground_state.mp2_diffdm
              - stateDiffAdc2.reference_state.nuclear_dipole.getD k 0)
            + product_trace (dip0.getD k []) ([[[(1 : ℚ) / 5]]].getD i [])) ∧
    state_dipole_moments classify0 stateDiffAdc2 none = .ok [[9 / 10, 0, 0]] :=
  ⟨C4_state_dipole_moments_formula classify0 stateDiffAdc2 none [[[1 / 5]]] dip0
      rfl rfl (by decide) rfl rfl,
    by
      norm_num [state_dipole_moments, stateDiffAdc2, stateDiffAdc0,
        stateNoDiffAdc0, refState0, blankState, dip0, resolveMethod, classify0,
        HfDensityMatrix, product_trace]
      intro h
      exact absurd h (by decide)⟩

/-! ### Frame lemmas for the heap-model orchestrators -/

theorem write_getElem_ne (w : World) (b : Addr) (d : SolverStateData) (a : Addr)
    (h : a ≠ b) : (w.write b d).heap[a]? = w.heap[a]? :=
  List.getElem?_set_ne (Ne.symm h)

theorem attach_state_densities_snd (P : DensityProvider) (w : World) (b : Addr)
    (f1 f2 f3 : Bool) (m : Option MethodArg) :
    (attach_state_densities P w b f1 f2 f3 m).2 = b := rfl

theorem attach_state_densities_frame (P : DensityProvider) (w : World)
    (b : Addr) (f1 f2 f3 : Bool) (m : Option MethodArg) (a : Addr) (h : a ≠ b) :
    (attach_state_densities P w b f1 f2 f3 m).1.heap[a]? = w.heap[a]? :=
  List.getElem?_set_ne (Ne.symm h)

theorem attach_state_properties_frame (classify : String → String)
    (P : DensityProvider) (w : World) (b : Addr) (m : Option MethodArg)
    (a : Addr) (h : a ≠ b) :
    (attach_state_properties classify P w b m).1.heap[a]? = w.heap[a]? := by
  unfold attach_state_properties
  cases hc : (w.read b).state_diffdms.isSome <;> simp only [hc] <;>
    simp only [Bool.false_eq_true, if_false, if_true, attach_state_densities_snd]
  · split
    · exact attach_state_densities_frame P w b true false false m a h
    · rw [write_getElem_ne _ _ _ _ h]
      exact attach_state_densities_frame P w b true false false m a h
  · split
    · rfl
    · exact write_getElem_ne _ _ _ _ h

theorem attach_state_properties_snd_ok (classify : String → String)
    (P : DensityProvider) (w : World) (b : Addr) (m : Option MethodArg)
    (c : Addr) (h : (attach_state_properties classify P w b m).2 = .ok c) :
    c = b := by
  unfold attach_state_properties at h
  cases hc : (w.read b).state_diffdms.isSome <;> simp only [hc] at h <;>
    simp only [Bool.false_eq_true, if_false, if_true] at h <;>
    split at h <;> simp_all [attach_state_densities_snd]

theorem attach_transition_properties_frame (P : DensityProvider) (w : World)
    (b : Addr) (m : Option MethodArg) (a : Addr) (h : a ≠ b) :
    (attach_transition_properties P w b m).1.heap[a]? = w.heap[a]? := by
  unfold attach_transition_properties
  cases hc : (w.read b).ground_to_excited_tdms.isSome <;> simp only [hc] <;>
    simp only [Bool.false_eq_true, if_false, if_true]
  · split
    · exact attach_state_densities_frame P w b false true false m a h
    · rw [write_getElem_ne _ _ _ _ (by rw [attach_state_densities_snd]; exact h),
        write_getElem_ne _ _ _ _ (by rw [attach_state_densities_snd]; exact h)]
      exact attach_state_densities_frame P w b false true false m a h
  · split
    · rfl
    · rw [write_getElem_ne _ _ _ _ h]
      exact write_getElem_ne _ _ _ _ h

/-! ### Claims about the attachment orchestrators -/

/-- Claim C5: `attach_properties` never mutates the caller's original
solver-state object: whatever the flags, method, classification and density
provider, and whether the call succeeds or raises, the object at the original
address holds exactly the attributes it held before (all new attributes go to
the shallow copy). -/
theorem C5_attach_properties_preserves_original (classify : String → String)
    (P : DensityProvider) (w : World) (a : Addr)
    (tp sp : Bool) (m : Option MethodArg) (h : a < w.heap.length) :
    (attach_properties classify P w a tp sp m).1.heap[a]? = w.heap[a]? := by
  unfold attach_properties copyState
  have hne : a ≠ w.heap.length := Nat.ne_of_lt h
  have hcopy : (w.heap ++ [w.read a])[a]? = w.heap[a]? := by
    rw [List.getElem?_append, if_pos h]
  cases sp <;> simp only [Bool.false_eq_true, if_false, if_true]
  · cases tp <;> simp only [Bool.false_eq_true, if_false, if_true]
    · exact hcopy
    · rw [attach_transition_properties_frame _ _ _ _ _ hne]
      exact hcopy
  · split
    · rw [attach_state_properties_frame _ _ _ _ _ _ hne]
      exact hcopy
    · rename_i b hb
      have hb' : b = w.heap.length :=
        attach_state_properties_snd_ok _ _ _ _ _ _ hb
      cases tp <;> simp only [Bool.false_eq_true, if_false, if_true]
      · rw [attach_state_properties_frame _ _ _ _ _ _ hne]
        exact hcopy
      · rw [attach_transition_properties_frame _ _ _ _ _ (hb' ▸ hne),
          attach_state_properties_frame _ _ _ _ _ _ hne]
        exact hcopy

/-- Witness for C5: on a one-object world, running `attach_properties` with
both flags on leaves the original object (address 0) untouched. -/
theorem C5_attach_properties_preserves_original_witness :
    0 < worldT.heap.length ∧
    (attach_properties classify0 provider0 worldT 0 true true none).1.heap[0]?
      = worldT.heap[0]? ∧
    worldT.heap[0]? = some stateT :=
  ⟨Nat.zero_lt_one,
    C5_attach_properties_preserves_original classify0 provider0 worldT 0
      true true none Nat.zero_lt_one, rfl⟩

/-- Claim C6: `attach_properties` with both flags false returns a fresh copy:
the result address is distinct from the input address, the object there is
structurally identical to the input object (no new attributes), and the
original is unchanged. -/
theorem C6_attach_properties_noop_copy (classify : String → String)
    (P : DensityProvider) (w : World) (a : Addr) (m : Option MethodArg)
    (h : a < w.heap.length) :
    (attach_properties classify P w a false false m).2 = .ok w.heap.length ∧
    w.heap.length ≠ a ∧
    (attach_properties classify P w a false false m).1.heap[w.heap.length]?
      = some (w.read a) ∧
    (attach_properties classify P w a false false m).1.heap[a]?
      = some (w.read a) := by
  refine ⟨rfl, (Nat.ne_of_lt h).symm, ?_, ?_⟩
  · show (w.heap ++ [w.read a])[w.heap.length]? = some (w.read a)
    exact List.getElem?_concat_length w.heap (w.read a)
  · show (w.heap ++ [w.read a])[a]? = some (w.read a)
    rw [List.getElem?_append, if_pos h, List.getElem?_eq_getElem h]
    unfold World.read
    rw [List.getD_eq_getElem w.heap blankState h]

/-- Witness for C6: on a one-object world, the both-flags-false call returns
address 1 ≠ 0 holding a record equal to the original, and address 0 still
holds the original. -/
theorem C6_attach_properties_noop_copy_witness :
    0 < world0.heap.length ∧
    ((attach_properties classify0 provider0 world0 0 false false none).2
        = .ok world0.heap.length ∧
      world0.heap.length ≠ 0 ∧
      (attach_properties classify0 provider0 world0 0 false false
          none).1.heap[world0.heap.length]? = some (world0.read 0) ∧
      (attach_properties classify0 provider0 world0 0 false false
          none).1.heap[0]? = some (world0.read 0)) ∧
    world0.read 0 = stateDiffAdc2 :=
  ⟨Nat.zero_lt_one,
    C6_attach_properties_noop_copy classify0 provider0 world0 0 none
      Nat.zero_lt_one, rfl⟩

/-- Claim C9: on a state that already has `ground_to_excited_tdms`,
`attach_transition_properties` never invokes the density provider: its entire
result is independent of the provider, and the provider call counter is left
unchanged (zero calls). -/
theorem C9_attach_transition_properties_no_provider_call
    (P P' : DensityProvider) (w : World) (a : Addr) (m : Option MethodArg)
    (h : (w.read a).ground_to_excited_tdms.isSome = true) :
    attach_transition_properties P w a m
      = attach_transition_properties P' w a m ∧
    (attach_transition_properties P w a m).1.providerCalls
      = w.providerCalls := by
  constructor
  · unfold attach_transition_properties
    rw [if_pos h, if_pos h]
  · unfold attach_transition_properties
    rw [if_pos h]
    dsimp only
    split
    · rfl
    · simp [World.write]

/-- Witness for C9: on the one-object world holding the transition-ready
state, two different providers give identical results and the call counter
stays at zero. -/
theorem C9_attach_transition_properties_no_provider_call_witness :
    (worldT.read 0).ground_to_excited_tdms.isSome = true ∧
    (attach_transition_properties provider0 worldT 0 none
        = attach_transition_properties provider1 worldT 0 none ∧
      (attach_transition_properties provider0 worldT 0 none).1.providerCalls
        = worldT.providerCalls) :=
  ⟨rfl,
    C9_attach_transition_properties_no_provider_call provider0 provider1
      worldT 0 none rfl⟩

end Adcc
